import Mathlib

/-!
Verification development for the `my_bevy_start` VR demo application.

The repository contains two variants of the application glue code:
`src/lib.rs` (the library / android entry point, `#[bevy_main]`) and
`src/main.rs` (the binary entry point).  Both register per-frame systems —
continuous locomotion (`run`), snap-turn (`snap_turn_system`), keyboard
movement (`move_keyboard`, lib only), scene cycling (`spawn_new_scene`,
lib only) — plus a scene-ready animation observer
(`play_animation_when_ready`) and an asset-index registry
(`asset_handler.rs`).

We embed the per-frame effect of each system as a pure function of the
values the Bevy ECS hands it for that frame: the action values looked up
from the action entities, the optional query results (tracking-root
transform, headset-view transform, hand poses) and the prior resource
state (`TurnState`).  Scalar input values and the thresholds compared
against them are embedded as exact rationals (the literals `0.8`, `0.2`,
`0.05` of the source, read exactly); 3D arithmetic (vectors, quaternions,
transforms) is embedded over the reals, with the quaternion formulas taken
from the engine's math library (`glam`: `Quat::mul_vec3`, `Quat::mul`,
`Quat::from_rotation_y`; bevy `Transform::rotate_around`,
`Transform::rotate`).  Fallible action-value lookups (`.unwrap()` in the
source) are embedded with `Except`, the error constructor standing for the
Rust panic.
-/

/-- 2D analog input vector (`glam::Vec2`), the per-frame value of a
`Vec2ActionValue`; components embedded as exact rationals. -/
structure Vec2 where
  x : ℚ
  y : ℚ
deriving DecidableEq, Repr

/-- `Vec2::length_squared`. -/
def Vec2.lengthSq (v : Vec2) : ℚ := v.x * v.x + v.y * v.y

/-- 3D vector (`glam::Vec3`), embedded over the reals. -/
@[ext]
structure Vec3 where
  x : ℝ
  y : ℝ
  z : ℝ

/-- Componentwise vector addition. -/
noncomputable def Vec3.add (a b : Vec3) : Vec3 := ⟨a.x + b.x, a.y + b.y, a.z + b.z⟩

/-- Componentwise vector subtraction. -/
noncomputable def Vec3.sub (a b : Vec3) : Vec3 := ⟨a.x - b.x, a.y - b.y, a.z - b.z⟩

/-- Scalar multiple of a vector (`Vec3 * f32`). -/
noncomputable def Vec3.smul (a : Vec3) (c : ℝ) : Vec3 := ⟨a.x * c, a.y * c, a.z * c⟩

/-- Dot product (`Vec3::dot`). -/
noncomputable def Vec3.dot (a b : Vec3) : ℝ := a.x * b.x + a.y * b.y + a.z * b.z

/-- Cross product (`Vec3::cross`). -/
noncomputable def Vec3.cross (a b : Vec3) : Vec3 :=
  ⟨a.y * b.z - a.z * b.y, a.z * b.x - a.x * b.z, a.x * b.y - a.y * b.x⟩

/-- The zero vector (`Vec3::ZERO`). -/
def Vec3.zero : Vec3 := ⟨0, 0, 0⟩

/-- `Vec3::normalize`: scale by the reciprocal of the length
(`sqrt` of the squared length). -/
noncomputable def Vec3.normalize (a : Vec3) : Vec3 :=
  a.smul (Real.sqrt (a.dot a))⁻¹

/-- The canonical forward axis `-Vec3::Z` used by the locomotion code. -/
noncomputable def Vec3.negZ : Vec3 := ⟨0, 0, -1⟩

/-- The canonical right axis `Vec3::X`. -/
noncomputable def Vec3.unitX : Vec3 := ⟨1, 0, 0⟩

/-- Rotation quaternion (`glam::Quat`), embedded over the reals. -/
@[ext]
structure Quat where
  x : ℝ
  y : ℝ
  z : ℝ
  w : ℝ

/-- `Quat::mul_vec3` as implemented in glam:
`rhs * (w*w - b.dot b) + b * (rhs.dot b * 2) + b.cross rhs * (w * 2)`
with `b` the vector part of the quaternion. -/
noncomputable def Quat.mulVec3 (q : Quat) (v : Vec3) : Vec3 :=
  let b : Vec3 := ⟨q.x, q.y, q.z⟩
  ((v.smul (q.w * q.w - b.dot b)).add (b.smul (v.dot b * 2))).add
    ((b.cross v).smul (q.w * 2))

/-- The Hamilton product `Quat::mul` (glam component formulas). -/
noncomputable def Quat.mul (a b : Quat) : Quat :=
  ⟨a.w * b.x + a.x * b.w + a.y * b.z - a.z * b.y,
   a.w * b.y - a.x * b.z + a.y * b.w + a.z * b.x,
   a.w * b.z + a.x * b.y - a.y * b.x + a.z * b.w,
   a.w * b.w - a.x * b.x - a.y * b.y - a.z * b.z⟩

/-- `Quat::from_rotation_y angle = (0, sin (angle/2), 0, cos (angle/2))`. -/
noncomputable def Quat.fromRotationY (angle : ℝ) : Quat :=
  ⟨0, Real.sin (angle / 2), 0, Real.cos (angle / 2)⟩

/-- The identity quaternion `Quat::IDENTITY`. -/
noncomputable def Quat.identity : Quat := ⟨0, 0, 0, 1⟩

/-- Bevy `Transform`: translation, rotation, scale. -/
@[ext]
structure Transform where
  translation : Vec3
  rotation : Quat
  scale : Vec3

/-- Bevy `Transform::rotate`: pre-multiply the rotation, leaving
translation and scale untouched. -/
noncomputable def Transform.rotate (t : Transform) (rotation : Quat) : Transform :=
  { t with rotation := rotation.mul t.rotation }

/-- Bevy `Transform::rotate_around point rotation`:
`translation := point + rotation * (translation - point)` (translate_around)
followed by `rotate`. -/
noncomputable def Transform.rotateAround (t : Transform) (point : Vec3) (rotation : Quat) :
    Transform :=
  { t with
    translation := point.add (rotation.mulVec3 (t.translation.sub point))
    rotation := rotation.mul t.rotation }

/-- The `TurnState` resource of both `lib.rs` and `main.rs`: a single
boolean `ready` arming the snap-turn. -/
structure TurnState where
  ready : Bool
deriving DecidableEq, Repr

/-- `TurnState::default()` as produced by `#[derive(Default)]`:
`bool::default()` is `false`.  This is the value inserted at startup by
`.insert_resource(TurnState::default())` in both variants. -/
def TurnState.default : TurnState := ⟨false⟩

/-- The snap angle selected by `snap_turn_system` (both variants):
`if turn_value > 0.0 { -FRAC_PI_4 } else { FRAC_PI_4 }`. -/
noncomputable def snapAngle (turnValue : ℚ) : ℝ :=
  if 0 < turnValue then -(Real.pi / 4) else Real.pi / 4

/-- `lib.rs` `snap_turn_system`: the world-space headset position,
`root_translation + root_rotation * local_headset`. -/
noncomputable def worldHeadset (root : Transform) (headset : Transform) : Vec3 :=
  root.translation.add (root.rotation.mulVec3 headset.translation)

/-- The outcome of a fallible Rust operation: `RustPanic.unwrapNone`
models the panic of `Option::unwrap` on `None`. -/
inductive RustPanic where
  | unwrapNone
deriving DecidableEq, Repr

/-- `Option::unwrap`: yields the value, or panics on `None`. -/
def unwrapOpt {α : Type} : Option α → Except RustPanic α
  | some a => .ok a
  | none => .error .unwrapNone

/-- The per-frame effect of `snap_turn_system` in `src/lib.rs` on the
tracking-root transform and the `TurnState` resource.  Inputs: the result
of the `turn` action's `Vec2ActionValue` lookup (unwrapped, like the
source's `vec2_value.get(turn_actions.turn_action).unwrap()`), the prior
`TurnState`, the (optional) single tracking-root transform and the
(optional) single `HeadsetView` transform.  Returns the updated root (if
present) and the updated `TurnState`. -/
noncomputable def snap_turn_system (turnLookup : Option Vec2) (state : TurnState)
    (root : Option Transform) (headset : Option Transform) :
    Except RustPanic (Option Transform × TurnState) :=
  match unwrapOpt turnLookup with
  | .error e => .error e
  | .ok movevals =>
  let turnValue := movevals.x
  let fireStep : Option Transform × TurnState :=
    if (8 : ℚ)/10 < |turnValue| ∧ state.ready = true then
      match root with
      | some rootTransform =>
        match headset with
        | some headsetTransform =>
          let world := worldHeadset rootTransform headsetTransform
          let angle := snapAngle turnValue
          (some (rootTransform.rotateAround world (Quat.fromRotationY angle)), ⟨false⟩)
        | none => (some rootTransform, state)   -- "No headset view found, cannot rotate."
      | none => (none, state)                   -- "No root transform found, cannot rotate."
    else (root, state)
  -- "only one turn per thumbstick movement": re-arm once the stick is released
  .ok (if |turnValue| < (2 : ℚ)/10 then (fireStep.1, ⟨true⟩) else fireStep)

/-- Whether `snap_turn_system` fires a turn this tick: the guard
`turn_value.abs() > 0.8 && turn_state.ready` together with the environment
queries (tracking root, and for the `lib.rs` variant the headset view)
succeeding; `env` abstracts the availability of those query results. -/
def snapFires (ready : Bool) (turnValue : ℚ) (env : Bool) : Bool :=
  decide ((8 : ℚ)/10 < |turnValue|) && ready && env

/-- The `ready` flag after one tick of `snap_turn_system`: cleared by a
fired turn, then re-armed when `turn_value.abs() < 0.2`. -/
def snapStepReady (ready : Bool) (turnValue : ℚ) (env : Bool) : Bool :=
  let afterFire := if snapFires ready turnValue env then false else ready
  if |turnValue| < (2 : ℚ)/10 then true else afterFire

/-- Run the snap-turn arm/fire state machine over a list of per-tick
inputs (turn value, environment availability), returning the per-tick
fired flags. -/
def runMachine : Bool → List (ℚ × Bool) → List Bool
  | _, [] => []
  | ready, (turnValue, env) :: rest =>
    snapFires ready turnValue env :: runMachine (snapStepReady ready turnValue env) rest

/-- The per-frame effect of `snap_turn_system` in `src/main.rs` on the
tracking-root transform and the `TurnState` resource.  This variant has no
headset query: on firing it calls `transform.rotate(Quat::from_rotation_y(angle))`
directly on the root. -/
noncomputable def snap_turn_system_main (turnLookup : Option Vec2) (state : TurnState)
    (root : Option Transform) : Except RustPanic (Option Transform × TurnState) :=
  match unwrapOpt turnLookup with
  | .error e => .error e
  | .ok movevals =>
  let turnValue := movevals.x
  let fireStep : Option Transform × TurnState :=
    if (8 : ℚ)/10 < |turnValue| ∧ state.ready = true then
      match root with
      | some transform =>
        (some (transform.rotate (Quat.fromRotationY (snapAngle turnValue))), ⟨false⟩)
      | none => (none, state)
    else (root, state)
  .ok (if |turnValue| < (2 : ℚ)/10 then (fireStep.1, ⟨true⟩) else fireStep)

/-- The per-frame effect of the continuous-locomotion system `run` in
`src/lib.rs` on the tracking-root transform.  Inputs: the result of the
`move` action's `Vec2ActionValue` lookup (unwrapped by the source), the
rotation of the right-hand pose (the `GlobalTransform` isometry the
source derives `forward`/`right` from), and the (optional) tracking-root
transform.  The gizmo drawing of the source has no effect on the root and
is not modelled. -/
noncomputable def run (moveLookup : Option Vec2) (rightHandRotation : Option Quat)
    (root : Option Transform) : Except RustPanic (Option Transform) :=
  match unwrapOpt moveLookup with
  | .error e => .error e
  | .ok movevals =>
  if (5 : ℚ)/100 < movevals.lengthSq then
    match root, rightHandRotation with
    | some rootTransform, some poseRotation =>
      let forward := (poseRotation.mulVec3 Vec3.negZ).normalize
      let right := (poseRotation.mulVec3 Vec3.unitX).normalize
      let delta := ((forward.smul (movevals.y : ℝ)).smul (1/100)).add
        ((right.smul (movevals.x : ℝ)).smul (1/100))
      .ok (some { rootTransform with translation := rootTransform.translation.add delta })
    | _, _ => .ok root
  else .ok root

/-- The per-frame effect of the continuous-locomotion system `run` in
`src/main.rs` on the tracking-root transform: early-returns when
`movevals.length_squared() < 0.05`, else applies the delta with speed
scalar `0.05`. -/
noncomputable def run_main (moveLookup : Option Vec2) (rightHandRotation : Option Quat)
    (root : Option Transform) : Except RustPanic (Option Transform) :=
  match unwrapOpt moveLookup with
  | .error e => .error e
  | .ok movevals =>
  if movevals.lengthSq < (5 : ℚ)/100 then .ok root
  else
    match root, rightHandRotation with
    | some rootTransform, some poseRotation =>
      let forward := (poseRotation.mulVec3 Vec3.negZ).normalize
      let right := (poseRotation.mulVec3 Vec3.unitX).normalize
      let delta := ((forward.smul (movevals.y : ℝ)).smul (5/100)).add
        ((right.smul (movevals.x : ℝ)).smul (5/100))
      .ok (some { rootTransform with translation := rootTransform.translation.add delta })
    | _, _ => .ok root

/-- The locomotion delta as the spec words it: `forward*v.y*k + right*v.x*k`
with `forward` and `right` the normalized results of rotating `-Z` and `+X`
by the current orientation, `k` the fixed speed scalar. -/
noncomputable def specLocomotionDelta (orientation : Quat) (v : Vec2) (k : ℝ) : Vec3 :=
  ((orientation.mulVec3 Vec3.negZ).normalize.smul ((v.y : ℝ) * k)).add
    ((orientation.mulVec3 Vec3.unitX).normalize.smul ((v.x : ℝ) * k))

/-- `Vec3::normalize_or_zero`: the zero vector stays zero, any other
vector is normalized. -/
noncomputable def Vec3.normalizeOrZero (a : Vec3) : Vec3 :=
  letI : Decidable (a.dot a = 0) := Classical.propDecidable _
  if a.dot a = 0 then Vec3.zero else a.normalize

/-- The per-frame effect of `move_keyboard` in `src/lib.rs` on one
`KeyboardCamera` transform.  Inputs: the six boolean action-value lookups
(each unwrapped in source order), the camera transform and the frame
delta time `time.delta_secs()`. -/
noncomputable def move_keyboard (left right forward backward up down : Option Bool)
    (camera : Transform) (dt : ℝ) : Except RustPanic Transform :=
  match unwrapOpt left with
  | .error e => .error e
  | .ok l =>
  match unwrapOpt right with
  | .error e => .error e
  | .ok r =>
  match unwrapOpt forward with
  | .error e => .error e
  | .ok f =>
  match unwrapOpt backward with
  | .error e => .error e
  | .ok b =>
  match unwrapOpt up with
  | .error e => .error e
  | .ok u =>
  match unwrapOpt down with
  | .error e => .error e
  | .ok d =>
  let speed : ℝ := 1
  let direction : Vec3 :=
    ⟨(if r then (1 : ℝ) else 0) - (if l then (1 : ℝ) else 0), 0,
     (if b then (1 : ℝ) else 0) - (if f then (1 : ℝ) else 0)⟩
  let directionUpDown : Vec3 := ⟨0, (if u then (1 : ℝ) else 0) - (if d then (1 : ℝ) else 0), 0⟩
  let moved := l || r || f || b || u || d
  if moved then
    let localDirection := camera.rotation.mulVec3 direction.normalizeOrZero
    -- local_direction.y = 0.0: no vertical movement from the view direction
    let localDirectionFlat : Vec3 := ⟨localDirection.x, 0, localDirection.z⟩
    .ok { camera with
          translation := camera.translation.add
            (((localDirectionFlat.smul speed).add (directionUpDown.smul speed)).smul dt) }
  else .ok camera

/-- An entry of the static registry `ASSET_ELEMENTS` in
`src/asset_handler.rs`: a glTF file name. -/
structure AssetElementFile where
  file_name : String
deriving DecidableEq, Repr

/-- `ASSET_ELEMENTS`: the fixed list of glTF scene files. -/
def ASSET_ELEMENTS : List AssetElementFile :=
  [⟨"simpleHumanRig.glb"⟩, ⟨"simpleWall.glb"⟩]

/-- Modelled from the spec: the constant `MAX_ASSET_ELEMENTS` is imported
by `lib.rs` from `asset_handler.rs` but its definition is absent from the
source snapshot; the spec describes the registry as indexed by "the fixed
asset count N", so we take the length of `ASSET_ELEMENTS`. -/
def MAX_ASSET_ELEMENTS : ℕ := ASSET_ELEMENTS.length

/-- A loaded element of `AssetElementList` (`src/asset_handler.rs`):
a name and a loaded scene handle (`Handle<Scene>`, modelled as an opaque
numeric id). -/
structure AssetElement where
  name : String
  asset : ℕ
deriving DecidableEq, Repr

/-- The `AssetElementList` resource: the loaded-handle array populated at
startup. -/
structure AssetElementList where
  elements : List AssetElement
deriving DecidableEq, Repr

/-- `AssetElementList::get`: first element with the given name. -/
def AssetElementList.get (l : AssetElementList) (name : String) : Option AssetElement :=
  l.elements.find? (fun e => e.name == name)

/-- `AssetElementList::get_by_index`:
`self.elements.get(index).map(|e| &e.asset)` — `slice::get` is the
non-panicking indexed access. -/
def AssetElementList.get_by_index (l : AssetElementList) (index : ℕ) : Option ℕ :=
  (l.elements[index]?).map (fun e => e.asset)

/-- A world effect emitted by `spawn_new_scene`: despawning an existing
scene-root entity, spawning the scene for a handle, or logging that the
index had no asset. -/
inductive SpawnEffect where
  | despawn (entity : ℕ)
  | spawnScene (handle : ℕ)
  | logNoAsset (index : ℕ)
deriving DecidableEq, Repr

/-- The two fields of the `MoveActions` resource that `spawn_new_scene`
mutates: `shown_scene` and `new_scene_released`. -/
structure NewSceneState where
  shown_scene : ℕ
  new_scene_released : Bool
deriving DecidableEq, Repr

/-- The per-frame effect of `spawn_new_scene` in `src/lib.rs`.  Inputs:
the `new_scene` boolean action-value lookup (unwrapped by the source), the
mutable `shown_scene`/`new_scene_released` state, the `AssetElementList`
resource and the entities of the current `SceneRoot` query.  Returns the
updated state and the list of world effects in order. -/
def spawn_new_scene (pressed : Option Bool) (st : NewSceneState)
    (assets : AssetElementList) (sceneRoots : List ℕ) :
    Except RustPanic (NewSceneState × List SpawnEffect) :=
  match unwrapOpt pressed with
  | .error e => .error e
  | .ok p =>
  if !p then
    .ok ({ st with new_scene_released := true }, [])
  else if !st.new_scene_released then
    .ok (st, [])
  else
    let shown1 := st.shown_scene + 1
    let shown2 := if shown1 ≥ MAX_ASSET_ELEMENTS then 0 else shown1
    let despawns := sceneRoots.map SpawnEffect.despawn
    match assets.get_by_index shown2 with
    | some handle => .ok (⟨shown2, false⟩, despawns ++ [SpawnEffect.spawnScene handle])
    | none => .ok (⟨shown2, false⟩, despawns ++ [SpawnEffect.logNoAsset shown2])

/-- The `AnimationToPlay` component: handle of the stored animation graph
and the node index of the clip within it (handles modelled as numeric
ids). -/
structure AnimationToPlay where
  graph_handle : ℕ
  index : ℕ
deriving DecidableEq, Repr

/-- A node of the spawned scene subtree as seen by
`play_animation_when_ready`: an entity id and whether the entity carries
an `AnimationPlayer` component. -/
structure SceneNode where
  entity : ℕ
  hasAnimationPlayer : Bool
deriving DecidableEq, Repr

/-- An effect of `play_animation_when_ready` on one descendant entity:
`player.play(index).repeat()` plus insertion of the
`AnimationGraphHandle`. -/
structure AnimCommand where
  entity : ℕ
  clipIndex : ℕ
  repeating : Bool
  graph_handle : ℕ
deriving DecidableEq, Repr

/-- The effect of the `play_animation_when_ready` observer
(`src/lib.rs` and `src/main.rs`, identical logic): if the trigger target
carries `AnimationToPlay`, walk all its descendants and, for every one
with an `AnimationPlayer`, start repeating playback of the clip and attach
the graph handle; otherwise do nothing. -/
def play_animation_when_ready (target : Option AnimationToPlay)
    (descendants : List SceneNode) : List AnimCommand :=
  match target with
  | none => []
  | some animationToPlay =>
    descendants.filterMap fun child =>
      if child.hasAnimationPlayer then
        some ⟨child.entity, animationToPlay.index, true, animationToPlay.graph_handle⟩
      else none

/-- The `ready` flag produced by the `lib.rs` `snap_turn_system` embedding
coincides with the pure step function `snapStepReady`, with the
environment flag standing for both per-frame queries succeeding. -/
theorem snap_turn_system_ready_agrees (turn : Vec2) (state : TurnState)
    (root headset : Option Transform) :
    (snap_turn_system (some turn) state root headset).map (fun p => p.2)
      = .ok ⟨snapStepReady state.ready turn.x (root.isSome && headset.isSome)⟩ := by
  unfold snap_turn_system snapStepReady snapFires unwrapOpt
  rcases state with ⟨r⟩
  rcases root with _ | rt <;> rcases headset with _ | hs <;> rcases r <;>
    by_cases h8 : (8 : ℚ)/10 < |turn.x| <;> by_cases h2 : |turn.x| < (2 : ℚ)/10 <;>
      simp [h8, h2, Except.map]

/-- The `ready` flag produced by the `main.rs` `snap_turn_system` embedding
coincides with `snapStepReady`, with the environment flag standing for the
tracking-root query succeeding. -/
theorem snap_turn_system_main_ready_agrees (turn : Vec2) (state : TurnState)
    (root : Option Transform) :
    (snap_turn_system_main (some turn) state root).map (fun p => p.2)
      = .ok ⟨snapStepReady state.ready turn.x root.isSome⟩ := by
  unfold snap_turn_system_main snapStepReady snapFires unwrapOpt
  rcases state with ⟨r⟩
  rcases root with _ | rt <;> rcases r <;>
    by_cases h8 : (8 : ℚ)/10 < |turn.x| <;> by_cases h2 : |turn.x| < (2 : ℚ)/10 <;>
      simp [h8, h2, Except.map]

/-- A fired snap-turn clears the arm flag on the same tick: the re-arm
branch cannot undo it because `0.8 < |tv|` excludes `|tv| < 0.2`. -/
theorem machine_fire_clears (ready : Bool) (tv : ℚ) (env : Bool)
    (h : snapFires ready tv env = true) : snapStepReady ready tv env = false := by
  have h8 : (8 : ℚ)/10 < |tv| := by
    have := h
    simp only [snapFires, Bool.and_eq_true, decide_eq_true_eq] at this
    exact this.1.1
  have h2 : ¬ |tv| < (2 : ℚ)/10 := by
    intro hlt
    linarith
  simp [snapStepReady, h, h2]

/-- While the machine is in `Cooldown` (`ready = false`), no turn fires
before some tick whose turn value is strictly below the `0.2` release
threshold. -/
theorem machine_cooldown_blocks (l : List (ℚ × Bool)) :
    ∀ n : ℕ, (runMachine false l)[n]? = some true →
      ∃ m : ℕ, m < n ∧ ∃ p : ℚ × Bool, l[m]? = some p ∧ |p.1| < (2 : ℚ)/10 := by
  induction l with
  | nil => intro n h; simp [runMachine] at h
  | cons hd tl ih =>
    intro n h
    obtain ⟨tv, env⟩ := hd
    rw [runMachine] at h
    have hfire : snapFires false tv env = false := by simp [snapFires]
    cases n with
    | zero =>
      rw [List.getElem?_cons_zero, hfire] at h
      simp at h
    | succ n =>
      rw [List.getElem?_cons_succ] at h
      by_cases h2 : |tv| < (2 : ℚ)/10
      · exact ⟨0, Nat.succ_pos n, (tv, env), by simp, h2⟩
      · have hstep : snapStepReady false tv env = false := by
          simp [snapStepReady, snapFires, h2]
        rw [hstep] at h
        obtain ⟨m, hm, p, hp, habs⟩ := ih n h
        exact ⟨m + 1, Nat.succ_lt_succ hm, p, by simpa using hp, habs⟩

/-- C1: over any per-tick input sequence (turn value and query
availability per tick), once the snap-turn machine has fired at tick `i`,
it fires again at a later tick `j` only if the absolute turn value was
strictly below `0.2` at some strictly intermediate tick — i.e. at most one
turn per contiguous deflection without a release. -/
theorem c1_at_most_one_fire_per_deflection (l : List (ℚ × Bool)) (ready : Bool)
    (i j : ℕ) (hij : i < j)
    (hi : (runMachine ready l)[i]? = some true)
    (hj : (runMachine ready l)[j]? = some true) :
    ∃ m : ℕ, i < m ∧ m < j ∧ ∃ p : ℚ × Bool, l[m]? = some p ∧ |p.1| < (2 : ℚ)/10 := by
  induction l generalizing ready i j with
  | nil => simp [runMachine] at hi
  | cons hd tl ih =>
    obtain ⟨tv, env⟩ := hd
    rw [runMachine] at hi hj
    obtain ⟨j', rfl⟩ : ∃ j', j = j' + 1 := ⟨j - 1, by omega⟩
    rw [List.getElem?_cons_succ] at hj
    cases i with
    | zero =>
      rw [List.getElem?_cons_zero] at hi
      have hfire : snapFires ready tv env = true := by simpa using hi
      rw [machine_fire_clears ready tv env hfire] at hj
      obtain ⟨m, hm, p, hp, habs⟩ := machine_cooldown_blocks tl j' hj
      exact ⟨m + 1, Nat.succ_pos m, Nat.succ_lt_succ hm, p, by simpa using hp, habs⟩
    | succ i' =>
      rw [List.getElem?_cons_succ] at hi
      obtain ⟨m, hm1, hm2, p, hp, habs⟩ := ih _ i' j' (by omega) hi hj
      exact ⟨m + 1, by omega, by omega, p, by simpa using hp, habs⟩

/-- Witness for C1 at the spec's own scenario prefix: turn values
`[0.9, 0.1, 0.9]` from the armed state fire at ticks 0 and 2, and the
theorem produces the intermediate release tick. -/
theorem c1_at_most_one_fire_per_deflection_witness :
    (runMachine true [((9 : ℚ)/10, true), ((1 : ℚ)/10, true), ((9 : ℚ)/10, true)])[0]?
        = some true ∧
    (runMachine true [((9 : ℚ)/10, true), ((1 : ℚ)/10, true), ((9 : ℚ)/10, true)])[2]?
        = some true ∧
    ∃ m : ℕ, 0 < m ∧ m < 2 ∧
      ∃ p : ℚ × Bool, ([((9 : ℚ)/10, true), ((1 : ℚ)/10, true), ((9 : ℚ)/10, true)]
          : List (ℚ × Bool))[m]? = some p ∧ |p.1| < (2 : ℚ)/10 :=
  ⟨by norm_num [runMachine, snapFires, snapStepReady, abs_of_nonneg],
   by norm_num [runMachine, snapFires, snapStepReady, abs_of_nonneg],
    c1_at_most_one_fire_per_deflection
      [((9 : ℚ)/10, true), ((1 : ℚ)/10, true), ((9 : ℚ)/10, true)] true 0 2
      (by norm_num)
      (by norm_num [runMachine, snapFires, snapStepReady, abs_of_nonneg])
      (by norm_num [runMachine, snapFires, snapStepReady, abs_of_nonneg])⟩

/-- C2 counterexample: the claim says `TurnState.ready` starts `true` and
the very first tick with `|turn_value| > 0.8` fires; in the code
`#[derive(Default)]` initializes `ready = false`, so the first tick with
turn value `0.9` does not fire. -/
theorem c2_counterexample_initial_not_ready :
    TurnState.default.ready = false ∧
    runMachine TurnState.default.ready [((9 : ℚ)/10, true)] = [false] :=
  ⟨rfl, by norm_num [TurnState.default, runMachine, snapFires]⟩

/-- C2 (amended): `TurnState.ready` is initialized to `false`
(`#[derive(Default)]` on a `bool` field), so the snap-turn machine starts
in `Cooldown`: a first tick with `|turn_value| > 0.8` does not fire, and a
tick with `|turn_value| > 0.8` fires once some earlier tick had
`|turn_value| < 0.2`. -/
theorem c2_initial_state_is_cooldown (tv₁ tv₂ : ℚ) (env₁ env₂ : Bool)
    (h1 : |tv₁| < (2 : ℚ)/10) (h2 : (8 : ℚ)/10 < |tv₂|) :
    TurnState.default.ready = false ∧
    runMachine TurnState.default.ready [(tv₂, env₂)] = [false] ∧
    runMachine TurnState.default.ready [(tv₁, env₁), (tv₂, true)] = [false, true] := by
  refine ⟨rfl, ?_, ?_⟩
  · simp [TurnState.default, runMachine, snapFires]
  · simp [TurnState.default, runMachine, snapFires, snapStepReady, h1, h2]

/-- Witness for C2's amended statement at turn values `0` then `1`. -/
theorem c2_initial_state_is_cooldown_witness :
    |(0 : ℚ)| < (2 : ℚ)/10 ∧ (8 : ℚ)/10 < |(1 : ℚ)| ∧
    (TurnState.default.ready = false ∧
     runMachine TurnState.default.ready [((1 : ℚ), true)] = [false] ∧
     runMachine TurnState.default.ready [((0 : ℚ), true), ((1 : ℚ), true)] = [false, true]) :=
  ⟨by norm_num, by norm_num,
   c2_initial_state_is_cooldown 0 1 true true (by norm_num) (by norm_num)⟩

/-- The horizontal projection of a point: the `y` component dropped. -/
noncomputable def Vec3.horizontal (v : Vec3) : Vec3 := ⟨v.x, 0, v.z⟩

/-- A yaw rotation (about the `y` axis) applied around a pivot gives the
same transform as the same rotation applied around the pivot's horizontal
projection: the pivot's height is irrelevant. -/
theorem rotateAround_yaw_horizontal_pivot (t : Transform) (p : Vec3) (a : ℝ) :
    t.rotateAround p (Quat.fromRotationY a)
      = t.rotateAround p.horizontal (Quat.fromRotationY a) := by
  have hsc : Real.sin (a/2) ^ 2 + Real.cos (a/2) ^ 2 = 1 := Real.sin_sq_add_cos_sq (a/2)
  unfold Transform.rotateAround Quat.fromRotationY Vec3.horizontal Quat.mulVec3
    Vec3.add Vec3.sub Vec3.smul Vec3.dot Vec3.cross
  refine Transform.ext ?_ rfl rfl
  refine Vec3.ext ?_ ?_ ?_ <;> simp only []
  · ring
  · linear_combination (-p.y) * hsc
  · ring

/-- Rotating a transform about its own translation (`rotate_around` at the
root's own origin) is exactly `Transform::rotate`: pre-multiplying the
rotation while keeping the translation. -/
theorem rotateAround_self (t : Transform) (q : Quat) :
    t.rotateAround t.translation q = t.rotate q := by
  unfold Transform.rotateAround Transform.rotate Quat.mulVec3
    Vec3.add Vec3.sub Vec3.smul Vec3.dot Vec3.cross
  refine Transform.ext ?_ rfl rfl
  refine Vec3.ext ?_ ?_ ?_ <;> simp only [] <;> ring

/-- Evaluation of the `lib.rs` snap-turn on a firing tick with both
queries available: the root is rotated by the snap angle about the
world-space headset position and the arm flag is cleared. -/
theorem snap_turn_system_fires (turn : Vec2) (state : TurnState) (rt hs : Transform)
    (h8 : (8 : ℚ)/10 < |turn.x|) (hready : state.ready = true) :
    snap_turn_system (some turn) state (some rt) (some hs)
      = .ok (some (rt.rotateAround (worldHeadset rt hs)
          (Quat.fromRotationY (snapAngle turn.x))), ⟨false⟩) := by
  have h2 : ¬ |turn.x| < (2 : ℚ)/10 := by intro h; linarith
  unfold snap_turn_system unwrapOpt
  simp [h8, hready, h2]

/-- Evaluation of the `lib.rs` snap-turn on a tick satisfying the firing
guard but with no headset view available: the root is untouched and the
arm flag is kept (the source only logs). -/
theorem snap_turn_system_no_headset (turn : Vec2) (state : TurnState) (rt : Transform)
    (h8 : (8 : ℚ)/10 < |turn.x|) :
    snap_turn_system (some turn) state (some rt) none = .ok (some rt, state) := by
  have h2 : ¬ |turn.x| < (2 : ℚ)/10 := by intro h; linarith
  unfold snap_turn_system unwrapOpt
  by_cases hready : state.ready = true <;> simp [h8, hready, h2]

/-- Evaluation of the `main.rs` snap-turn on a firing tick: the root's
rotation is pre-multiplied by the snap rotation in place and the arm flag
is cleared. -/
theorem snap_turn_system_main_fires (turn : Vec2) (state : TurnState) (rt : Transform)
    (h8 : (8 : ℚ)/10 < |turn.x|) (hready : state.ready = true) :
    snap_turn_system_main (some turn) state (some rt)
      = .ok (some (rt.rotate (Quat.fromRotationY (snapAngle turn.x))), ⟨false⟩) := by
  have h2 : ¬ |turn.x| < (2 : ℚ)/10 := by intro h; linarith
  unfold snap_turn_system_main unwrapOpt
  simp [h8, hready, h2]

/-- C3: when a snap-turn fires, the `lib.rs` variant's applied transform is
the yaw rotation about the horizontal projection of the world-space
headset position (the pivot's height never matters for a yaw rotation);
with no headset reference the `lib.rs` variant applies no rotation at all;
and the `main.rs` variant (which has no headset reference) applies the
rotation about the tracking root's own origin. -/
theorem c3_snap_turn_pivot (turn : Vec2) (state : TurnState) (rt hs : Transform)
    (h8 : (8 : ℚ)/10 < |turn.x|) (hready : state.ready = true) :
    snap_turn_system (some turn) state (some rt) (some hs)
      = .ok (some (rt.rotateAround (worldHeadset rt hs).horizontal
          (Quat.fromRotationY (snapAngle turn.x))), ⟨false⟩) ∧
    snap_turn_system (some turn) state (some rt) none = .ok (some rt, state) ∧
    snap_turn_system_main (some turn) state (some rt)
      = .ok (some (rt.rotateAround rt.translation
          (Quat.fromRotationY (snapAngle turn.x))), ⟨false⟩) := by
  refine ⟨?_, snap_turn_system_no_headset turn state rt h8, ?_⟩
  · rw [snap_turn_system_fires turn state rt hs h8 hready,
      rotateAround_yaw_horizontal_pivot]
  · rw [snap_turn_system_main_fires turn state rt h8 hready, rotateAround_self]

/-- A fixed sample transform (origin, identity rotation, unit scale) used
as a concrete input by the witnesses. -/
noncomputable def sampleTransform : Transform := ⟨⟨0, 0, 0⟩, ⟨0, 0, 0, 1⟩, ⟨1, 1, 1⟩⟩

/-- Witness for C3 at full right deflection (`turn_value = 1`) from the
armed state with concrete transforms. -/
theorem c3_snap_turn_pivot_witness :
    (8 : ℚ)/10 < |(1 : ℚ)| ∧ (TurnState.mk true).ready = true ∧
    (snap_turn_system (some ⟨1, 0⟩) ⟨true⟩ (some sampleTransform) (some sampleTransform)
        = .ok (some (sampleTransform.rotateAround
            (worldHeadset sampleTransform sampleTransform).horizontal
            (Quat.fromRotationY (snapAngle 1))), ⟨false⟩) ∧
     snap_turn_system (some ⟨1, 0⟩) ⟨true⟩ (some sampleTransform) none
        = .ok (some sampleTransform, ⟨true⟩) ∧
     snap_turn_system_main (some ⟨1, 0⟩) ⟨true⟩ (some sampleTransform)
        = .ok (some (sampleTransform.rotateAround sampleTransform.translation
            (Quat.fromRotationY (snapAngle 1))), ⟨false⟩)) :=
  ⟨by norm_num, rfl,
   c3_snap_turn_pivot ⟨1, 0⟩ ⟨true⟩ sampleTransform sampleTransform (by norm_num) rfl⟩

/-- C4: whenever the snap-turn fires, the applied rotation is
`from_rotation_y` of the snap angle, whose magnitude is the fixed quantum
`π/4` (45°) and whose sign is opposite to the sign of `turn_value`. -/
theorem c4_snap_turn_angle_quantum (turn : Vec2) (state : TurnState) (rt hs : Transform)
    (h8 : (8 : ℚ)/10 < |turn.x|) (hready : state.ready = true) :
    snap_turn_system (some turn) state (some rt) (some hs)
      = .ok (some (rt.rotateAround (worldHeadset rt hs)
          (Quat.fromRotationY (snapAngle turn.x))), ⟨false⟩) ∧
    snap_turn_system_main (some turn) state (some rt)
      = .ok (some (rt.rotate (Quat.fromRotationY (snapAngle turn.x))), ⟨false⟩) ∧
    |snapAngle turn.x| = Real.pi / 4 ∧
    (0 < turn.x → snapAngle turn.x = -(Real.pi / 4)) ∧
    (turn.x < 0 → snapAngle turn.x = Real.pi / 4) := by
  have hpi : (0 : ℝ) < Real.pi / 4 := by positivity
  refine ⟨snap_turn_system_fires turn state rt hs h8 hready,
    snap_turn_system_main_fires turn state rt h8 hready, ?_, ?_, ?_⟩
  · unfold snapAngle
    split
    · rw [abs_neg, abs_of_pos hpi]
    · rw [abs_of_pos hpi]
  · intro h; simp [snapAngle, h]
  · intro h
    have hn : ¬ (0 : ℚ) < turn.x := by linarith
    simp [snapAngle, hn]

/-- Witness for C4 at `turn_value = 1` with concrete transforms. -/
theorem c4_snap_turn_angle_quantum_witness :
    (8 : ℚ)/10 < |(1 : ℚ)| ∧ (TurnState.mk true).ready = true ∧
    (snap_turn_system (some ⟨1, 0⟩) ⟨true⟩ (some sampleTransform) (some sampleTransform)
        = .ok (some (sampleTransform.rotateAround
            (worldHeadset sampleTransform sampleTransform)
            (Quat.fromRotationY (snapAngle 1))), ⟨false⟩) ∧
     snap_turn_system_main (some ⟨1, 0⟩) ⟨true⟩ (some sampleTransform)
        = .ok (some (sampleTransform.rotate (Quat.fromRotationY (snapAngle 1))), ⟨false⟩) ∧
     |snapAngle 1| = Real.pi / 4 ∧
     ((0 : ℚ) < 1 → snapAngle 1 = -(Real.pi / 4)) ∧
     ((1 : ℚ) < 0 → snapAngle 1 = Real.pi / 4)) :=
  ⟨by norm_num, rfl,
   c4_snap_turn_angle_quantum ⟨1, 0⟩ ⟨true⟩ sampleTransform sampleTransform
     (by norm_num) rfl⟩

/-- Scaling a vector twice is scaling by the product. -/
theorem Vec3.smul_smul (a : Vec3) (b c : ℝ) : (a.smul b).smul c = a.smul (b * c) := by
  unfold Vec3.smul
  refine Vec3.ext ?_ ?_ ?_ <;> simp only [] <;> ring

/-- C5 (amended): below the dead-zone the continuous-locomotion systems
leave the tracking root untouched — for the `lib.rs` variant at every
input with `|v|² ≤ 0.05` (its guard is `> 0.05`), for the `main.rs`
variant at every input with `|v|² < 0.05` (its guard is `< 0.05 → return`,
so at `|v|²` exactly `0.05` it applies a movement delta). -/
theorem c5_dead_zone_no_mutation (v : Vec2) (hand : Option Quat) (root : Option Transform) :
    (v.lengthSq ≤ (5 : ℚ)/100 → run (some v) hand root = .ok root) ∧
    (v.lengthSq < (5 : ℚ)/100 → run_main (some v) hand root = .ok root) := by
  constructor
  · intro hle
    have h : ¬ (5 : ℚ)/100 < v.lengthSq := not_lt.mpr hle
    unfold run unwrapOpt
    simp [h]
  · intro hlt
    unfold run_main unwrapOpt
    simp [hlt]

/-- C5 counterexample: at the input `v = (0.1, 0.2)` the squared magnitude
is exactly `0.05`, which the claim places inside the dead-zone, yet the
`main.rs` continuous-locomotion system (whose early return needs
`|v|² < 0.05`) mutates the root translation. -/
theorem c5_counterexample_main_moves_at_boundary :
    (Vec2.mk (1/10) (2/10)).lengthSq ≤ (5 : ℚ)/100 ∧
    run_main (some ⟨1/10, 2/10⟩) (some ⟨0, 0, 0, 1⟩) (some sampleTransform)
      = .ok (some { sampleTransform with translation := ⟨1/200, 0, -(1/100)⟩ }) ∧
    Vec3.mk (1/200 : ℝ) 0 (-(1/100)) ≠ sampleTransform.translation := by
  refine ⟨by norm_num [Vec2.lengthSq], ?_, ?_⟩
  · norm_num [run_main, unwrapOpt, Vec2.lengthSq, Quat.mulVec3, Vec3.normalize,
      Vec3.dot, Vec3.cross, Vec3.smul, Vec3.add, Vec3.negZ, Vec3.unitX,
      sampleTransform, Real.sqrt_one]
  · intro hEq
    have := congrArg Vec3.x hEq
    norm_num [sampleTransform] at this

/-- C6: above the dead-zone with the tracking root and the right-hand pose
available, each continuous-locomotion variant adds to the root translation
exactly `forward*v.y*k + right*v.x*k`, `forward`/`right` the normalized
rotations of `-Z`/`+X` by the pose orientation, `k` the variant's fixed
speed scalar (`0.01` in `lib.rs`, `0.05` in `main.rs`). -/
theorem c6_locomotion_delta_formula (v : Vec2) (q : Quat) (rt : Transform)
    (h : (5 : ℚ)/100 < v.lengthSq) :
    run (some v) (some q) (some rt)
      = .ok (some { rt with
          translation := rt.translation.add (specLocomotionDelta q v (1/100)) }) ∧
    run_main (some v) (some q) (some rt)
      = .ok (some { rt with
          translation := rt.translation.add (specLocomotionDelta q v (5/100)) }) := by
  have h' : ¬ v.lengthSq < (5 : ℚ)/100 := not_lt.mpr h.le
  constructor
  · simp only [run, unwrapOpt, specLocomotionDelta]
    rw [if_pos h]
    simp only [Vec3.smul_smul]
  · simp only [run_main, unwrapOpt, specLocomotionDelta]
    rw [if_neg h']
    simp only [Vec3.smul_smul]

/-- Witness for C6 at `v = (1, 1)` with the identity pose orientation. -/
theorem c6_locomotion_delta_formula_witness :
    (5 : ℚ)/100 < (Vec2.mk 1 1).lengthSq ∧
    (run (some ⟨1, 1⟩) (some ⟨0, 0, 0, 1⟩) (some sampleTransform)
      = .ok (some { sampleTransform with
          translation := sampleTransform.translation.add
            (specLocomotionDelta ⟨0, 0, 0, 1⟩ ⟨1, 1⟩ (1/100)) }) ∧
     run_main (some ⟨1, 1⟩) (some ⟨0, 0, 0, 1⟩) (some sampleTransform)
      = .ok (some { sampleTransform with
          translation := sampleTransform.translation.add
            (specLocomotionDelta ⟨0, 0, 0, 1⟩ ⟨1, 1⟩ (5/100)) })) :=
  ⟨by norm_num [Vec2.lengthSq],
   c6_locomotion_delta_formula ⟨1, 1⟩ ⟨0, 0, 0, 1⟩ sampleTransform
     (by norm_num [Vec2.lengthSq])⟩

/-- C7 counterexample: the claim says only the first node carrying an
animation player is started and wired; on a subtree with two
player-carrying nodes the handler emits play-and-attach effects for both
of them. -/
theorem c7_counterexample_every_player_modified :
    play_animation_when_ready (some ⟨5, 7⟩) [⟨0, true⟩, ⟨1, true⟩]
      = [⟨0, 7, true, 5⟩, ⟨1, 7, true, 5⟩] ∧
    (play_animation_when_ready (some ⟨5, 7⟩) [⟨0, true⟩, ⟨1, true⟩]).length = 2 :=
  ⟨rfl, rfl⟩

/-- C7 (amended): on the scene-ready trigger the handler walks the spawned
subtree and, for every node carrying an animation player (not only the
first), starts looping playback of the preconfigured clip and attaches the
animation graph to that node; with no `AnimationToPlay` on the target, or
no player in the subtree, it is a no-op (no error is raised — the
embedding is total). -/
theorem c7_play_animation_every_player (atp : AnimationToPlay) (ds : List SceneNode) :
    play_animation_when_ready (some atp) ds
      = (ds.filter (fun n => n.hasAnimationPlayer)).map
          (fun n => ⟨n.entity, atp.index, true, atp.graph_handle⟩) ∧
    play_animation_when_ready none ds = [] ∧
    ((∀ n ∈ ds, n.hasAnimationPlayer = false) →
      play_animation_when_ready (some atp) ds = []) := by
  have hmain : ∀ ds' : List SceneNode, play_animation_when_ready (some atp) ds'
      = (ds'.filter (fun n => n.hasAnimationPlayer)).map
          (fun n => ⟨n.entity, atp.index, true, atp.graph_handle⟩) := by
    intro ds'
    induction ds' with
    | nil => rfl
    | cons hd tl ih =>
      cases hp : hd.hasAnimationPlayer <;>
        simp [play_animation_when_ready, List.filterMap_cons, List.filter_cons, hp] at ih ⊢ <;>
        exact ih
  refine ⟨hmain ds, rfl, fun hnone => ?_⟩
  rw [hmain ds]
  have hfilter : ds.filter (fun n => n.hasAnimationPlayer) = [] := by
    simp only [List.filter_eq_nil_iff]
    intro n hn
    simp [hnone n hn]
  rw [hfilter]
  rfl

/-- C8: `get_by_index` yields `none` for any index at or beyond the list
length, yields the handle registered at the index otherwise, is total (the
embedding of the non-panicking `slice::get`), and is a pure function of
the element list, hence stable across repeated calls on an unchanged
list. -/
theorem c8_get_by_index_contract (l : AssetElementList) (i : ℕ) :
    (l.elements.length ≤ i → l.get_by_index i = none) ∧
    (∀ h : i < l.elements.length, l.get_by_index i = some l.elements[i].asset) ∧
    (∀ l' : AssetElementList, l'.elements = l.elements →
      l'.get_by_index i = l.get_by_index i) := by
  refine ⟨?_, ?_, ?_⟩
  · intro hle
    unfold AssetElementList.get_by_index
    rw [List.getElem?_eq_none hle]
    rfl
  · intro hlt
    unfold AssetElementList.get_by_index
    rw [List.getElem?_eq_getElem hlt]
    rfl
  · intro l' hEq
    unfold AssetElementList.get_by_index
    rw [hEq]

/-- C9: every per-frame system that looks up an action value unwraps it:
a missing value (a `none` lookup) makes the system crash with the unwrap
panic instead of defaulting or skipping — continuous locomotion (both
variants), snap-turn (both variants), keyboard movement and scene
spawning. -/
theorem c9_missing_action_value_panics :
    (∀ (hand : Option Quat) (root : Option Transform),
        run none hand root = .error .unwrapNone) ∧
    (∀ (hand : Option Quat) (root : Option Transform),
        run_main none hand root = .error .unwrapNone) ∧
    (∀ (state : TurnState) (root headset : Option Transform),
        snap_turn_system none state root headset = .error .unwrapNone) ∧
    (∀ (state : TurnState) (root : Option Transform),
        snap_turn_system_main none state root = .error .unwrapNone) ∧
    (∀ (r f b u d : Option Bool) (camera : Transform) (dt : ℝ),
        move_keyboard none r f b u d camera dt = .error .unwrapNone) ∧
    (∀ (st : NewSceneState) (assets : AssetElementList) (sceneRoots : List ℕ),
        spawn_new_scene none st assets sceneRoots = .error .unwrapNone) :=
  ⟨fun _ _ => rfl, fun _ _ => rfl, fun _ _ _ => rfl, fun _ _ => rfl,
   fun _ _ _ _ _ _ _ => rfl, fun _ _ _ => rfl⟩

/-- C10: on every frame and for every input, the continuous-locomotion
systems leave the tracking root's rotation and scale exactly as they were,
whether or not a movement delta is applied. -/
theorem c10_run_only_translation (v : Vec2) (hand : Option Quat) (rt : Transform) :
    (run (some v) hand (some rt)).map (Option.map fun t => (t.rotation, t.scale))
      = .ok (some (rt.rotation, rt.scale)) ∧
    (run_main (some v) hand (some rt)).map (Option.map fun t => (t.rotation, t.scale))
      = .ok (some (rt.rotation, rt.scale)) := by
  constructor
  · by_cases h : (5 : ℚ)/100 < v.lengthSq <;> rcases hand with _ | q <;>
      simp [run, unwrapOpt, h, Except.map]
  · by_cases h : v.lengthSq < (5 : ℚ)/100 <;> rcases hand with _ | q <;>
      simp [run_main, unwrapOpt, h, Except.map]
